import Mathlib

set_option maxRecDepth 8000

/-!
# Verification of the RRC data monitor core (`src/rrc_data_monitor.py`)

A shallow embedding of the protocol core of the repository's single source
file: the CRC-8 checksum, the byte-level frame parser state machine
(`RrcProtocolParser`), the typed packet decoder (`DataPacketHandler`) and
the shared data store (`RobotDataStore`), together with theorems settling
the specification's claims about them.

Modelling conventions:
* Bytes and unsigned machine words are `Nat` (with explicit wrap where the
  source can wrap); signed wire integers decode to `ℤ`.
* IEEE-754 binary32 payload fields decode exactly: a finite binary32 value
  is an integer multiple of 2^(-149), so `FVal.finite u` denotes the real
  value `u / 2^149` (`u : ℤ`), and infinities/NaN are explicit constructors.
  Python computes `rpm = rps * 60` in binary64; for every binary32-derived
  `rps` this product is exact (≤ 30 significant bits, exponent in range),
  so it is modelled by exact scaling (`FVal.mul60`).
* The battery voltage `raw / 1000.0` is modelled as the exact rational
  `raw / 1000`; no claim inspects its binary64 rounding.
* `time.time()` stamps are modelled as a `Nat` parameter threaded to the
  functions that capture the current time.
* Python `print` diagnostics are modelled as structured values where a
  claim mentions them (`CrcMismatch`), and dropped otherwise.
-/

/-- The 256-entry CRC-8 lookup table `crc8_table` from the source. -/
def crc8_table : List Nat := [
  0, 94, 188, 226, 97, 63, 221, 131, 194, 156, 126, 32, 163, 253, 31, 65,
  157, 195, 33, 127, 252, 162, 64, 30, 95, 1, 227, 189, 62, 96, 130, 220,
  35, 125, 159, 193, 66, 28, 254, 160, 225, 191, 93, 3, 128, 222, 60, 98,
  190, 224, 2, 92, 223, 129, 99, 61, 124, 34, 192, 158, 29, 67, 161, 255,
  70, 24, 250, 164, 39, 121, 155, 197, 132, 218, 56, 102, 229, 187, 89, 7,
  219, 133, 103, 57, 186, 228, 6, 88, 25, 71, 165, 251, 120, 38, 196, 154,
  101, 59, 217, 135, 4, 90, 184, 230, 167, 249, 27, 69, 198, 152, 122, 36,
  248, 166, 68, 26, 153, 199, 37, 123, 58, 100, 134, 216, 91, 5, 231, 185,
  140, 210, 48, 110, 237, 179, 81, 15, 78, 16, 242, 172, 47, 113, 147, 205,
  17, 79, 173, 243, 112, 46, 204, 146, 211, 141, 111, 49, 178, 236, 14, 80,
  175, 241, 19, 77, 206, 144, 114, 44, 109, 51, 209, 143, 12, 82, 176, 238,
  50, 108, 142, 208, 83, 13, 239, 177, 240, 174, 76, 18, 145, 207, 45, 115,
  202, 148, 118, 40, 171, 245, 23, 73, 8, 86, 180, 234, 105, 55, 213, 139,
  87, 9, 235, 181, 54, 104, 138, 212, 149, 203, 41, 119, 244, 170, 72, 22,
  233, 183, 85, 11, 136, 214, 52, 106, 43, 117, 151, 201, 74, 20, 246, 168,
  116, 42, 200, 150, 21, 75, 169, 247, 182, 232, 10, 84, 215, 137, 107, 53]

/-- `checksum_crc8(data)`: fold the table over the bytes, accumulator
starting at 0, with the source's final `& 0xFF` mask. -/
def checksum_crc8 (data : List Nat) : Nat :=
  (data.foldl (fun check b => crc8_table.getD (check ^^^ b) 0) 0) &&& 0xFF

-- Exact little-endian wire decoders (struct.unpack formats used by the source).

/-- `<H`: little-endian unsigned 16-bit. -/
def u16le (a b : Nat) : Nat := a + 256 * b

/-- `<h`: little-endian signed 16-bit (two's complement). -/
def i16le (a b : Nat) : ℤ :=
  let n := a + 256 * b
  if n < 32768 then (n : ℤ) else (n : ℤ) - 65536

/-- `<b`: signed byte (two's complement). -/
def i8val (a : Nat) : ℤ :=
  if a < 128 then (a : ℤ) else (a : ℤ) - 256

/-- `<i`: little-endian signed 32-bit (two's complement). -/
def i32le (a b c d : Nat) : ℤ :=
  let n := a + 256 * b + 65536 * c + 16777216 * d
  if n < 2 ^ 31 then (n : ℤ) else (n : ℤ) - 2 ^ 32

/-- Exact value of an IEEE-754 binary32 number: `finite u` denotes
`u / 2^149` (every finite binary32 value is such a multiple), plus the
two infinities and NaN. -/
inductive FVal where
  | finite (units : ℤ)
  | inf (neg : Bool)
  | nan
deriving DecidableEq

/-- `<f`: little-endian IEEE-754 binary32, decoded exactly into `FVal`. -/
def f32le (b0 b1 b2 b3 : Nat) : FVal :=
  let bits : Nat := b0 + 256 * b1 + 65536 * b2 + 16777216 * b3
  let sign : Nat := bits / 2 ^ 31 % 2
  let ex : Nat := bits / 2 ^ 23 % 256
  let frac : Nat := bits % 2 ^ 23
  if ex = 255 then
    (if frac = 0 then .inf (sign = 1) else .nan)
  else
    let mag : ℤ := if ex = 0 then (frac : ℤ) else ((2 : ℤ) ^ 23 + (frac : ℤ)) * 2 ^ (ex - 1)
    .finite (if sign = 1 then -mag else mag)

/-- Multiplication of a float value by the integer 60 (the source's
`rpm = rps * 60`, computed in binary64, which is exact for every
binary32-derived `rps`). -/
def FVal.mul60 : FVal → FVal
  | .finite u => .finite (60 * u)
  | .inf s => .inf s
  | .nan => .nan

-- The frame parser (`class RrcProtocolParser`).

/-- `class ParseState(Enum)`: the six parser states. -/
inductive ParseState where
  | WAIT_HEADER_1
  | WAIT_HEADER_2
  | WAIT_FUNCTION
  | WAIT_LENGTH
  | READ_DATA
  | READ_CHECKSUM
deriving DecidableEq

/-- The mutable state of `class RrcProtocolParser`: current `ParseState`,
captured function code, declared data length and payload buffer. -/
structure RrcProtocolParserState where
  state : ParseState
  function_code : Nat
  data_length : Nat
  data_buffer : List Nat
deriving DecidableEq

/-- `RrcProtocolParser._reset()` / `__init__`: `WAIT_HEADER_1`, zeroed
fields, empty buffer. -/
def parserReset : RrcProtocolParserState :=
  ⟨.WAIT_HEADER_1, 0, 0, []⟩

/-- `RrcProtocolParser.calculate_checksum()`: CRC-8 over
`[function_code, data_length] ++ data_buffer`. -/
def calculate_checksum (p : RrcProtocolParserState) : Nat :=
  checksum_crc8 (p.function_code :: p.data_length :: p.data_buffer)

/-- A successfully parsed packet (the dict returned by `parse_byte`):
function code, declared length, payload and capture timestamp. -/
structure RrcPacket where
  function_code : Nat
  data_length : Nat
  data : List Nat
  timestamp : Nat
deriving DecidableEq

/-- The data carried by the `[CRC错误]` diagnostic print: expected and
received checksum, plus the raw frame fields. -/
structure CrcMismatch where
  expected : Nat
  received : Nat
  function_code : Nat
  data_length : Nat
  data : List Nat
deriving DecidableEq

/-- `RrcProtocolParser.parse_byte(byte_in)` at current time `t`: one step
of the state machine, returning the new parser state, the emitted packet
(if any) and the checksum-mismatch diagnostic (if any). -/
def parse_byte (p : RrcProtocolParserState) (t byte_in : Nat) :
    RrcProtocolParserState × Option RrcPacket × Option CrcMismatch :=
  match p.state with
  | .WAIT_HEADER_1 =>
      (if byte_in = 0xAA then { p with state := .WAIT_HEADER_2 } else p, none, none)
  | .WAIT_HEADER_2 =>
      (if byte_in = 0x55 then { p with state := .WAIT_FUNCTION } else parserReset, none, none)
  | .WAIT_FUNCTION =>
      ({ p with function_code := byte_in, state := .WAIT_LENGTH }, none, none)
  | .WAIT_LENGTH =>
      (if byte_in = 0 then
        { p with data_length := byte_in, data_buffer := [], state := .READ_CHECKSUM }
      else
        { p with data_length := byte_in, data_buffer := [], state := .READ_DATA }, none, none)
  | .READ_DATA =>
      let buf := p.data_buffer ++ [byte_in]
      (if buf.length = p.data_length then
        { p with data_buffer := buf, state := .READ_CHECKSUM }
      else
        { p with data_buffer := buf }, none, none)
  | .READ_CHECKSUM =>
      let expected := calculate_checksum p
      if expected = byte_in then
        (parserReset, some ⟨p.function_code, p.data_length, p.data_buffer, t⟩, none)
      else
        (parserReset, none, some ⟨expected, byte_in, p.function_code, p.data_length, p.data_buffer⟩)

/-- Feed a byte list one byte at a time (all stamped with time `t`),
collecting the emitted packets in order. -/
def run_bytes (t : Nat) : List Nat → RrcProtocolParserState →
    RrcProtocolParserState × List RrcPacket
  | [], p => (p, [])
  | b :: bs, p =>
      let step := parse_byte p t b
      let rest := run_bytes t bs step.1
      (rest.1, match step.2.1 with | some pk => pk :: rest.2 | none => rest.2)

/-- The on-wire encoding of a well-formed frame: sync bytes `AA 55`,
function code, declared length = payload length, payload, and the CRC-8
over `[function_code, length] ++ payload`. -/
def encode_frame (fc : Nat) (payload : List Nat) : List Nat :=
  0xAA :: 0x55 :: fc :: payload.length ::
    (payload ++ [checksum_crc8 (fc :: payload.length :: payload)])

example : checksum_crc8 [] = 0 := by decide
example : (run_bytes 7 (encode_frame 6 [5, 32]) parserReset).2 =
    [⟨6, 2, [5, 32], 7⟩] := by decide

-- The shared data store (`class RobotDataStore`).

/-- `self.system_data`. -/
structure SystemData where
  battery_voltage : ℚ
  last_update : Option Nat
deriving DecidableEq

/-- One `motor_k` entry of `self.encoder_data`. -/
structure MotorData where
  id : Nat
  counter : ℤ
  rps : FVal
  rpm : FVal
deriving DecidableEq

/-- `self.encoder_data`. -/
structure EncoderData where
  motor_0 : MotorData
  motor_1 : MotorData
  motor_2 : MotorData
  motor_3 : MotorData
  last_update : Option Nat
deriving DecidableEq

/-- An `{'x','y','z'}` float triple of `self.imu_data`. -/
structure Vec3F where
  x : FVal
  y : FVal
  z : FVal
deriving DecidableEq

/-- `self.imu_data`. -/
structure ImuData where
  accel : Vec3F
  gyro : Vec3F
  last_update : Option Nat
deriving DecidableEq

/-- An `{'x','y'}` stick reading of `self.gamepad_data`. -/
structure StickData where
  x : ℤ
  y : ℤ
deriving DecidableEq

/-- `self.gamepad_data`. -/
structure GamepadData where
  buttons : Nat
  hat : Nat
  left_stick : StickData
  right_stick : StickData
  last_update : Option Nat
deriving DecidableEq

/-- `self.key_data`. -/
structure KeyData where
  key_id : Nat
  event : Nat
  event_name : String
  last_update : Option Nat
deriving DecidableEq

/-- `self.sbus_data`. -/
structure SbusData where
  channels : List ℤ
  ch17 : Nat
  ch18 : Nat
  signal_loss : Bool
  fail_safe : Bool
  last_update : Option Nat
deriving DecidableEq

/-- `self.bus_servo_data`. -/
structure BusServoData where
  servo_data : List Nat
  last_update : Option Nat
deriving DecidableEq

/-- `self.stats`. The Python `packet_counts` dict is modelled as a total
count function (absent key = count 0). -/
structure Stats where
  total_packets : Nat
  valid_packets : Nat
  crc_errors : Nat
  packet_counts : Nat → Nat
  start_time : Nat

/-- The whole `RobotDataStore` state. -/
structure RobotDataStore where
  system_data : SystemData
  encoder_data : EncoderData
  imu_data : ImuData
  gamepad_data : GamepadData
  key_data : KeyData
  sbus_data : SbusData
  bus_servo_data : BusServoData
  stats : Stats

/-- `RobotDataStore.reset_all_data()` called at current time `t`: every
category dict is rebuilt with its default/zero values and the stats dict
is rebuilt with zero counters and `start_time = time.time()` (the time of
this very call). The method overwrites every field of `self`, so it needs
no store argument. -/
def reset_all_data (t : Nat) : RobotDataStore where
  system_data := ⟨0, none⟩
  encoder_data := ⟨⟨0, 0, .finite 0, .finite 0⟩, ⟨1, 0, .finite 0, .finite 0⟩,
    ⟨2, 0, .finite 0, .finite 0⟩, ⟨3, 0, .finite 0, .finite 0⟩, none⟩
  imu_data := ⟨⟨.finite 0, .finite 0, .finite 0⟩, ⟨.finite 0, .finite 0, .finite 0⟩, none⟩
  gamepad_data := ⟨0, 0, ⟨0, 0⟩, ⟨0, 0⟩, none⟩
  key_data := ⟨0, 0, "", none⟩
  sbus_data := ⟨List.replicate 16 0, 0, 0, false, false, none⟩
  bus_servo_data := ⟨List.replicate 7 0, none⟩
  stats := ⟨0, 0, 0, fun _ => 0, t⟩

/-- `RobotDataStore.__init__` at creation time `t`: it just calls
`reset_all_data`. -/
def storeInit (t : Nat) : RobotDataStore := reset_all_data t

-- The packet decoder (`class DataPacketHandler`).

/-- `DataPacketHandler._parse_system_data`: needs `len(data) >= 3` and
sub-command `0x04`; stores `raw / 1000.0` volts (exact rational here). -/
def _parse_system_data (s : RobotDataStore) (data : List Nat) (timestamp : Nat) :
    RobotDataStore :=
  if 3 ≤ data.length then
    if data.getD 0 0 = 0x04 then
      let voltage_raw := u16le (data.getD 1 0) (data.getD 2 0)
      { s with system_data := ⟨(voltage_raw : ℚ) / 1000, some timestamp⟩ }
    else s
  else s

/-- The `event_names` mapping of `_parse_key_event`. -/
def event_names (event : Nat) : Option String :=
  if event = 0x01 then some "按下"
  else if event = 0x02 then some "长按"
  else if event = 0x04 then some "长按重复"
  else if event = 0x08 then some "长按松开"
  else if event = 0x10 then some "短按松开"
  else if event = 0x20 then some "单击"
  else if event = 0x40 then some "双击"
  else if event = 0x80 then some "三连击"
  else none

/-- An uppercase hex digit. -/
def hexDigit (n : Nat) : Char :=
  ['0', '1', '2', '3', '4', '5', '6', '7', '8', '9',
   'A', 'B', 'C', 'D', 'E', 'F'].getD n '0'

/-- Python `f"{b:02X}"` for a byte. -/
def hexByte (b : Nat) : String :=
  String.mk [hexDigit (b / 16 % 16), hexDigit (b % 16)]

/-- `DataPacketHandler._parse_key_event`: guarded by `len(data) >= 2`
(note: `>=`, not an exact-length check). -/
def _parse_key_event (s : RobotDataStore) (data : List Nat) (timestamp : Nat) :
    RobotDataStore :=
  if 2 ≤ data.length then
    let key_id := data.getD 0 0
    let event := data.getD 1 0
    { s with key_data :=
        ⟨key_id, event, (event_names event).getD ("未知(" ++ hexByte event ++ ")"),
         some timestamp⟩ }
  else s

/-- One 9-byte motor block `<Bif` of the encoder batch, plus the derived
`rpm = rps * 60`. -/
def unpack_motor (motor_data : List Nat) : MotorData :=
  let rps := f32le (motor_data.getD 5 0) (motor_data.getD 6 0)
    (motor_data.getD 7 0) (motor_data.getD 8 0)
  ⟨motor_data.getD 0 0,
   i32le (motor_data.getD 1 0) (motor_data.getD 2 0)
     (motor_data.getD 3 0) (motor_data.getD 4 0),
   rps, rps.mul60⟩

/-- `DataPacketHandler._parse_encoder_data`: exact length 37, sub-command
`0x10`, then the loop over `motor_idx in range(4)` (unrolled; each slice
`data[offset:offset+9]` is guarded by the source's `len(motor_data) == 9`
check) and finally `last_update = timestamp`. -/
def _parse_encoder_data (s : RobotDataStore) (data : List Nat) (timestamp : Nat) :
    RobotDataStore :=
  if data.length = 37 then
    if data.getD 0 0 = 0x10 then
      let block := fun (motor_idx : Nat) => (data.drop (1 + motor_idx * 9)).take 9
      let e0 := s.encoder_data
      let e1 := if (block 0).length = 9 then { e0 with motor_0 := unpack_motor (block 0) } else e0
      let e2 := if (block 1).length = 9 then { e1 with motor_1 := unpack_motor (block 1) } else e1
      let e3 := if (block 2).length = 9 then { e2 with motor_2 := unpack_motor (block 2) } else e2
      let e4 := if (block 3).length = 9 then { e3 with motor_3 := unpack_motor (block 3) } else e3
      { s with encoder_data := { e4 with last_update := some timestamp } }
    else s
  else s

/-- `DataPacketHandler._parse_imu_data`: exact length 24, six `<f`
floats: accel x,y,z then gyro x,y,z. -/
def _parse_imu_data (s : RobotDataStore) (data : List Nat) (timestamp : Nat) :
    RobotDataStore :=
  if data.length = 24 then
    let v := fun (i : Nat) => f32le (data.getD (4 * i) 0) (data.getD (4 * i + 1) 0)
      (data.getD (4 * i + 2) 0) (data.getD (4 * i + 3) 0)
    { s with imu_data := ⟨⟨v 0, v 1, v 2⟩, ⟨v 3, v 4, v 5⟩, some timestamp⟩ }
  else s

/-- `DataPacketHandler._parse_gamepad_data`: exact length 7, `<HB4b`. -/
def _parse_gamepad_data (s : RobotDataStore) (data : List Nat) (timestamp : Nat) :
    RobotDataStore :=
  if data.length = 7 then
    { s with gamepad_data :=
        ⟨u16le (data.getD 0 0) (data.getD 1 0), data.getD 2 0,
         ⟨i8val (data.getD 3 0), i8val (data.getD 4 0)⟩,
         ⟨i8val (data.getD 5 0), i8val (data.getD 6 0)⟩,
         some timestamp⟩ }
  else s

/-- `DataPacketHandler._parse_sbus_data`: exact length 36, `<16h` then
`<4B`, with `bool()` applied to the last two bytes. -/
def _parse_sbus_data (s : RobotDataStore) (data : List Nat) (timestamp : Nat) :
    RobotDataStore :=
  if data.length = 36 then
    { s with sbus_data :=
        ⟨(List.range 16).map (fun i => i16le (data.getD (2 * i) 0) (data.getD (2 * i + 1) 0)),
         data.getD 32 0, data.getD 33 0,
         data.getD 34 0 ≠ 0, data.getD 35 0 ≠ 0,
         some timestamp⟩ }
  else s

/-- `DataPacketHandler._parse_bus_servo_info`: exact length 7, raw bytes. -/
def _parse_bus_servo_info (s : RobotDataStore) (data : List Nat) (timestamp : Nat) :
    RobotDataStore :=
  if data.length = 7 then
    { s with bus_servo_data := ⟨data, some timestamp⟩ }
  else s

/-- `DataPacketHandler.handle_packet`: first bump `total_packets`,
`valid_packets` and the per-code count, then route on the function code
(`0x0B` runs the encoder decode and then the SBUS decode on the same
payload). The debug `print` has no state effect and is dropped. -/
def handle_packet (s : RobotDataStore) (packet : RrcPacket) : RobotDataStore :=
  let fc := packet.function_code
  let st := s.stats
  let s' : RobotDataStore := { s with stats :=
    { st with
      total_packets := st.total_packets + 1,
      valid_packets := st.valid_packets + 1,
      packet_counts := fun c => if c = fc then st.packet_counts fc + 1 else st.packet_counts c } }
  if fc = 0x00 then _parse_system_data s' packet.data packet.timestamp
  else if fc = 0x06 then _parse_key_event s' packet.data packet.timestamp
  else if fc = 0x07 then _parse_imu_data s' packet.data packet.timestamp
  else if fc = 0x08 then _parse_bus_servo_info s' packet.data packet.timestamp
  else if fc = 0x09 then _parse_imu_data s' packet.data packet.timestamp
  else if fc = 0x0A then _parse_gamepad_data s' packet.data packet.timestamp
  else if fc = 0x0B then
    _parse_sbus_data (_parse_encoder_data s' packet.data packet.timestamp)
      packet.data packet.timestamp
  else s'

/-- One iteration of `read_data_loop` on a received byte: feed the parser
and, when a packet is emitted, run `handle_packet`. -/
def ingest_byte (s : RobotDataStore) (p : RrcProtocolParserState) (t b : Nat) :
    RobotDataStore × RrcProtocolParserState :=
  let step := parse_byte p t b
  (match step.2.1 with | some pk => handle_packet s pk | none => s, step.1)

example : (handle_packet (storeInit 0) ⟨6, 2, [5, 32], 7⟩).key_data =
    ⟨5, 32, "单击", some 7⟩ := by decide
example : (handle_packet (storeInit 0) ⟨6, 2, [5, 3], 7⟩).key_data.event_name =
    "未知(03)" := by decide

-- Specification-side restatement of the checksum (for the refinement
-- claim about `checksum_crc8`).

/-- The fixed 256-entry lookup table as printed verbatim in §6 of the
specification. -/
def spec_crc8_table : List Nat := [
  0, 94, 188, 226, 97, 63, 221, 131, 194, 156, 126, 32, 163, 253, 31, 65,
  157, 195, 33, 127, 252, 162, 64, 30, 95, 1, 227, 189, 62, 96, 130, 220,
  35, 125, 159, 193, 66, 28, 254, 160, 225, 191, 93, 3, 128, 222, 60, 98,
  190, 224, 2, 92, 223, 129, 99, 61, 124, 34, 192, 158, 29, 67, 161, 255,
  70, 24, 250, 164, 39, 121, 155, 197, 132, 218, 56, 102, 229, 187, 89, 7,
  219, 133, 103, 57, 186, 228, 6, 88, 25, 71, 165, 251, 120, 38, 196, 154,
  101, 59, 217, 135, 4, 90, 184, 230, 167, 249, 27, 69, 198, 152, 122, 36,
  248, 166, 68, 26, 153, 199, 37, 123, 58, 100, 134, 216, 91, 5, 231, 185,
  140, 210, 48, 110, 237, 179, 81, 15, 78, 16, 242, 172, 47, 113, 147, 205,
  17, 79, 173, 243, 112, 46, 204, 146, 211, 141, 111, 49, 178, 236, 14, 80,
  175, 241, 19, 77, 206, 144, 114, 44, 109, 51, 209, 143, 12, 82, 176, 238,
  50, 108, 142, 208, 83, 13, 239, 177, 240, 174, 76, 18, 145, 207, 45, 115,
  202, 148, 118, 40, 171, 245, 23, 73, 8, 86, 180, 234, 105, 55, 213, 139,
  87, 9, 235, 181, 54, 104, 138, 212, 149, 203, 41, 119, 244, 170, 72, 22,
  233, 183, 85, 11, 136, 214, 52, 106, 43, 117, 151, 201, 74, 20, 246, 168,
  116, 42, 200, 150, 21, 75, 169, 247, 182, 232, 10, 84, 215, 137, 107, 53]

/-- Modelled from the spec's words (§4.1): "maintain an 8-bit accumulator
initialized to 0; for each input byte, accumulator = table[accumulator XOR
byte]", processing bytes in order. -/
def checksumSpecAux (acc : Nat) : List Nat → Nat
  | [] => acc
  | b :: bs => checksumSpecAux (spec_crc8_table.getD (acc ^^^ b) 0) bs

/-- The spec-side checksum: the fold of `checksumSpecAux` started at 0. -/
def checksumSpec (data : List Nat) : Nat := checksumSpecAux 0 data

lemma spec_table_eq : spec_crc8_table = crc8_table := by decide

lemma and255_of_lt (x : Nat) (h : x < 256) : x &&& 255 = x := by
  have hm := Nat.and_pow_two_sub_one_eq_mod x 8
  norm_num at hm
  rw [hm]
  exact Nat.mod_eq_of_lt h

lemma crc8_table_mem_lt : ∀ x ∈ crc8_table, x < 256 := by decide

lemma crc8_table_getD_lt (i d : Nat) (hd : d < 256) : crc8_table.getD i d < 256 := by
  rcases Nat.lt_or_ge i crc8_table.length with h | h
  · rw [List.getD_eq_getElem _ _ h]
    exact crc8_table_mem_lt _ (crc8_table.getElem_mem h)
  · rw [List.getD_eq_default _ _ h]
    exact hd

lemma crc8_foldl_lt : ∀ (bs : List Nat) (acc : Nat), acc < 256 →
    bs.foldl (fun check b => crc8_table.getD (check ^^^ b) 0) acc < 256 := by
  intro bs
  induction bs with
  | nil => intro acc h; exact h
  | cons b bs ih =>
      intro acc _
      exact ih _ (crc8_table_getD_lt _ _ (by omega))

lemma checksumSpecAux_eq_foldl : ∀ (bs : List Nat) (acc : Nat),
    checksumSpecAux acc bs =
      bs.foldl (fun check b => crc8_table.getD (check ^^^ b) 0) acc := by
  intro bs
  induction bs with
  | nil => intro acc; rfl
  | cons b bs ih =>
      intro acc
      rw [checksumSpecAux, spec_table_eq, List.foldl_cons, ih]

/-- C4: `checksum_crc8` computes exactly the table fold described in the
spec (8-bit accumulator starting at 0, `acc := table[acc XOR byte]`, bytes
in order, with the table of §6); the accumulator genuinely stays 8-bit,
and the checksum of the empty sequence is 0. -/
theorem checksum_crc8_matches_spec :
    (∀ data : List Nat, checksum_crc8 data = checksumSpec data) ∧
    (∀ data : List Nat, checksum_crc8 data < 256) ∧
    checksum_crc8 [] = 0 := by
  have hfold : ∀ data : List Nat, checksum_crc8 data =
      data.foldl (fun check b => crc8_table.getD (check ^^^ b) 0) 0 := by
    intro data
    have hlt := crc8_foldl_lt data 0 (by omega)
    unfold checksum_crc8
    exact and255_of_lt _ hlt
  refine ⟨fun data => ?_, fun data => ?_, by decide⟩
  · rw [hfold, checksumSpec, checksumSpecAux_eq_foldl]
  · rw [hfold]
    exact crc8_foldl_lt data 0 (by omega)

-- C2: behaviour of the `READ_CHECKSUM` state.

/-- C2: in the `READ_CHECKSUM` state, a byte differing from the CRC-8 of
`[function_code, length] ++ payload` emits no frame (so one ingest step
leaves the `RobotDataStore` — every record, `last_update` and statistic —
untouched), reports a checksum-mismatch diagnostic carrying expected vs
received and the raw fields, and resets the parser; a byte equal to the
CRC-8 emits the frame with the captured fields and current time, and
likewise resets to `WAIT_HEADER_1`. -/
theorem read_checksum_step (s : RobotDataStore) (p : RrcProtocolParserState)
    (b t : Nat) (hst : p.state = .READ_CHECKSUM) :
    (b ≠ checksum_crc8 (p.function_code :: p.data_length :: p.data_buffer) →
      parse_byte p t b = (parserReset, none,
        some ⟨checksum_crc8 (p.function_code :: p.data_length :: p.data_buffer), b,
          p.function_code, p.data_length, p.data_buffer⟩) ∧
      ingest_byte s p t b = (s, parserReset)) ∧
    (b = checksum_crc8 (p.function_code :: p.data_length :: p.data_buffer) →
      parse_byte p t b = (parserReset,
        some ⟨p.function_code, p.data_length, p.data_buffer, t⟩, none) ∧
      ingest_byte s p t b =
        (handle_packet s ⟨p.function_code, p.data_length, p.data_buffer, t⟩, parserReset)) := by
  obtain ⟨st, fc, dl, buf⟩ := p
  have hst' : st = ParseState.READ_CHECKSUM := hst
  subst hst'
  refine ⟨fun hne => ?_, fun heq => ?_⟩
  · have hif : ¬(checksum_crc8 (fc :: dl :: buf) = b) := fun h => hne h.symm
    exact ⟨by simp [parse_byte, calculate_checksum, hif],
      by simp [ingest_byte, parse_byte, calculate_checksum, hif]⟩
  · have heq' : checksum_crc8 (fc :: dl :: buf) = b := heq.symm
    exact ⟨by simp [parse_byte, calculate_checksum, heq'],
      by simp [ingest_byte, parse_byte, calculate_checksum, heq']⟩

/-- Witness for `read_checksum_step`: a concrete `READ_CHECKSUM` parser
state, one mismatching byte (store untouched) and the matching byte
(frame emitted). -/
theorem read_checksum_step_witness :
    ingest_byte (storeInit 0) ⟨.READ_CHECKSUM, 6, 2, [5, 32]⟩ 9
      (checksum_crc8 [6, 2, 5, 32] + 1) = (storeInit 0, parserReset) ∧
    parse_byte ⟨.READ_CHECKSUM, 6, 2, [5, 32]⟩ 9 (checksum_crc8 [6, 2, 5, 32]) =
      (parserReset, some ⟨6, 2, [5, 32], 9⟩, none) :=
  ⟨((read_checksum_step (storeInit 0) ⟨.READ_CHECKSUM, 6, 2, [5, 32]⟩ _ 9 rfl).1
      (by decide)).2,
   ((read_checksum_step (storeInit 0) ⟨.READ_CHECKSUM, 6, 2, [5, 32]⟩ _ 9 rfl).2
      rfl).1⟩

-- C3: payload-length validation in the decoders.

lemma imu_len_guard {data : List Nat} (s : RobotDataStore) (t : Nat)
    (h : data.length ≠ 24) : _parse_imu_data s data t = s := by
  simp [_parse_imu_data, h]

lemma servo_len_guard {data : List Nat} (s : RobotDataStore) (t : Nat)
    (h : data.length ≠ 7) : _parse_bus_servo_info s data t = s := by
  simp [_parse_bus_servo_info, h]

lemma gamepad_len_guard {data : List Nat} (s : RobotDataStore) (t : Nat)
    (h : data.length ≠ 7) : _parse_gamepad_data s data t = s := by
  simp [_parse_gamepad_data, h]

lemma encoder_len_guard {data : List Nat} (s : RobotDataStore) (t : Nat)
    (h : data.length ≠ 37) : _parse_encoder_data s data t = s := by
  simp [_parse_encoder_data, h]

lemma sbus_len_guard {data : List Nat} (s : RobotDataStore) (t : Nat)
    (h : data.length ≠ 36) : _parse_sbus_data s data t = s := by
  simp [_parse_sbus_data, h]

lemma key_len_guard {data : List Nat} (s : RobotDataStore) (t : Nat)
    (h : data.length < 2) : _parse_key_event s data t = s := by
  rw [_parse_key_event, if_neg (by omega)]

lemma system_len_guard {data : List Nat} (s : RobotDataStore) (t : Nat)
    (h : data.length < 3) : _parse_system_data s data t = s := by
  rw [_parse_system_data, if_neg (by omega)]

/-- C3 (amended): the IMU, bus-servo, gamepad, encoder and SBUS decoders
validate the exact payload length of their layout and on mismatch leave
the whole store (hence that category's fields and `last_update`)
untouched; the key-event decoder however only requires `len(data) >= 2`
(and the system decoder `len(data) >= 3`), so only payloads shorter than
that bound are guaranteed not to mutate those records. -/
theorem decode_length_guards (s : RobotDataStore) (data : List Nat) (t : Nat) :
    (data.length ≠ 24 → _parse_imu_data s data t = s) ∧
    (data.length ≠ 7 → _parse_bus_servo_info s data t = s) ∧
    (data.length ≠ 7 → _parse_gamepad_data s data t = s) ∧
    (data.length ≠ 37 → _parse_encoder_data s data t = s) ∧
    (data.length ≠ 36 → _parse_sbus_data s data t = s) ∧
    (data.length < 2 → _parse_key_event s data t = s) ∧
    (data.length < 3 → _parse_system_data s data t = s) := by
  exact ⟨imu_len_guard s t, servo_len_guard s t, gamepad_len_guard s t,
    encoder_len_guard s t, sbus_len_guard s t, key_len_guard s t,
    system_len_guard s t⟩

/-- Witness for `decode_length_guards`: a 3-byte payload is rejected by
the IMU decoder and a 1-byte payload by the key-event decoder. -/
theorem decode_length_guards_witness :
    _parse_imu_data (storeInit 0) [1, 2, 3] 9 = storeInit 0 ∧
    _parse_key_event (storeInit 0) [1] 9 = storeInit 0 :=
  ⟨(decode_length_guards (storeInit 0) [1, 2, 3] 9).1 (by decide),
   (decode_length_guards (storeInit 0) [1] 9).2.2.2.2.2.1 (by decide)⟩

/-- Counterexample to C3 as stated: the key-event decoder checks
`len(data) >= 2`, not `== 2`, so the 3-byte payload `[5, 0x20, 0]`
(length not exactly 2) does mutate the key-event record. -/
theorem key_event_overlong_mutates :
    (handle_packet (storeInit 0) ⟨0x06, 3, [5, 32, 0], 1⟩).key_data ≠
        (storeInit 0).key_data ∧
      (handle_packet (storeInit 0) ⟨0x06, 3, [5, 32, 0], 1⟩).key_data.last_update =
        some 1 := by
  constructor
  · decide
  · decide

-- C8: the reset operation.

/-- Counterexample to C8 as stated: a store created at time 0 has
`start_time = 0`, but `reset_all_data` called at time 1 rebuilds the stats
dict with `start_time = time.time()`, i.e. 1 — `start_time` is *not* left
at the creation value. -/
theorem reset_start_time_changes :
    (reset_all_data 1).stats.start_time ≠ (storeInit 0).stats.start_time := by
  decide

/-- C8 (amended): `reset_all_data` at time `t1` restores every category
record to its default/zero value and zeroes all statistics counters
(total, valid, crc errors, per-code counts), but sets `start_time` to the
time of the reset call rather than keeping the store-creation value: the
result is exactly a store freshly created at `t0` with its `start_time`
overridden to `t1`. -/
theorem reset_restores_defaults (t0 t1 : Nat) :
    reset_all_data t1 =
      { storeInit t0 with stats := { (storeInit t0).stats with start_time := t1 } } :=
  rfl

-- Runs of the parser over whole byte streams (for the resynchronization
-- and no-header claims).

-- One-step lemmas for `run_bytes` at each parser state.

lemma run_wh1_aa (t fc dl : Nat) (buf bs : List Nat) :
    run_bytes t (0xAA :: bs) ⟨.WAIT_HEADER_1, fc, dl, buf⟩ =
      run_bytes t bs ⟨.WAIT_HEADER_2, fc, dl, buf⟩ := by
  simp only [run_bytes]
  simp [parse_byte]

lemma run_wh1_other (t fc dl b : Nat) (buf bs : List Nat) (hb : ¬(b = 0xAA)) :
    run_bytes t (b :: bs) ⟨.WAIT_HEADER_1, fc, dl, buf⟩ =
      run_bytes t bs ⟨.WAIT_HEADER_1, fc, dl, buf⟩ := by
  simp only [run_bytes]
  simp [parse_byte, hb]

lemma run_wh2_55 (t fc dl : Nat) (buf bs : List Nat) :
    run_bytes t (0x55 :: bs) ⟨.WAIT_HEADER_2, fc, dl, buf⟩ =
      run_bytes t bs ⟨.WAIT_FUNCTION, fc, dl, buf⟩ := by
  simp only [run_bytes]
  simp [parse_byte]

lemma run_wh2_other (t fc dl b : Nat) (buf bs : List Nat) (hb : ¬(b = 0x55)) :
    run_bytes t (b :: bs) ⟨.WAIT_HEADER_2, fc, dl, buf⟩ =
      run_bytes t bs parserReset := by
  simp only [run_bytes]
  simp [parse_byte, hb]

lemma run_wf (t fc dl b : Nat) (buf bs : List Nat) :
    run_bytes t (b :: bs) ⟨.WAIT_FUNCTION, fc, dl, buf⟩ =
      run_bytes t bs ⟨.WAIT_LENGTH, b, dl, buf⟩ := by
  simp only [run_bytes]
  simp [parse_byte]

lemma run_wl_zero (t fc dl : Nat) (buf bs : List Nat) :
    run_bytes t (0 :: bs) ⟨.WAIT_LENGTH, fc, dl, buf⟩ =
      run_bytes t bs ⟨.READ_CHECKSUM, fc, 0, []⟩ := by
  simp only [run_bytes]
  simp [parse_byte]

lemma run_wl_pos (t fc dl b : Nat) (buf bs : List Nat) (hb : ¬(b = 0)) :
    run_bytes t (b :: bs) ⟨.WAIT_LENGTH, fc, dl, buf⟩ =
      run_bytes t bs ⟨.READ_DATA, fc, b, []⟩ := by
  simp only [run_bytes]
  simp [parse_byte, hb]

lemma run_rd_full (t fc dl b : Nat) (buf bs : List Nat)
    (h : (buf ++ [b]).length = dl) :
    run_bytes t (b :: bs) ⟨.READ_DATA, fc, dl, buf⟩ =
      run_bytes t bs ⟨.READ_CHECKSUM, fc, dl, buf ++ [b]⟩ := by
  simp only [run_bytes]
  simp [parse_byte, h]

lemma run_rd_more (t fc dl b : Nat) (buf bs : List Nat)
    (h : ¬((buf ++ [b]).length = dl)) :
    run_bytes t (b :: bs) ⟨.READ_DATA, fc, dl, buf⟩ =
      run_bytes t bs ⟨.READ_DATA, fc, dl, buf ++ [b]⟩ := by
  have h' : ¬(buf.length + 1 = dl) := by simpa using h
  simp only [run_bytes]
  simp [parse_byte, h']

lemma run_rc_ok (t fc dl b : Nat) (buf bs : List Nat)
    (h : checksum_crc8 (fc :: dl :: buf) = b) :
    run_bytes t (b :: bs) ⟨.READ_CHECKSUM, fc, dl, buf⟩ =
      ((run_bytes t bs parserReset).1,
        ⟨fc, dl, buf, t⟩ :: (run_bytes t bs parserReset).2) := by
  simp only [run_bytes]
  simp [parse_byte, calculate_checksum, h]

/-- In `READ_DATA`, consuming the bytes that fill the buffer up to the
declared length moves the parser to `READ_CHECKSUM` with the full buffer,
emitting nothing on the way. -/
lemma run_read_data (t fc dl : Nat) :
    ∀ (rest : List Nat), ∀ (buf more : List Nat),
      buf.length + rest.length = dl → rest ≠ [] →
      run_bytes t (rest ++ more) ⟨.READ_DATA, fc, dl, buf⟩ =
        run_bytes t more ⟨.READ_CHECKSUM, fc, dl, buf ++ rest⟩ := by
  intro rest
  induction rest with
  | nil => intro buf more _ hne; exact absurd rfl hne
  | cons r rs ih =>
      intro buf more h _
      cases rs with
      | nil =>
          have hlen : (buf ++ [r]).length = dl := by
            simp only [List.length_append, List.length_cons, List.length_nil] at h ⊢
            omega
          show run_bytes t (r :: more) ⟨.READ_DATA, fc, dl, buf⟩ = _
          rw [run_rd_full t fc dl r buf more hlen]
      | cons r2 rs2 =>
          have hlt : ¬((buf ++ [r]).length = dl) := by
            simp only [List.length_append, List.length_cons, List.length_nil] at h ⊢
            omega
          show run_bytes t (r :: ((r2 :: rs2) ++ more)) ⟨.READ_DATA, fc, dl, buf⟩ = _
          rw [run_rd_more t fc dl r buf ((r2 :: rs2) ++ more) hlt,
            ih (buf ++ [r]) more
              (by simp only [List.length_append, List.length_cons, List.length_nil] at h ⊢
                  omega)
              (by simp)]
          simp

/-- Feeding one well-formed encoded frame from the initial parser state
emits exactly that frame and returns the parser to the initial state
before processing the remainder of the stream. -/
lemma run_frame (t fc : Nat) (payload more : List Nat) :
    run_bytes t (encode_frame fc payload ++ more) parserReset =
      ((run_bytes t more parserReset).1,
        ⟨fc, payload.length, payload, t⟩ :: (run_bytes t more parserReset).2) := by
  cases payload with
  | nil =>
      show run_bytes t
        (0xAA :: 0x55 :: fc :: 0 :: checksum_crc8 (fc :: 0 :: []) :: more) parserReset = _
      rw [show (parserReset : RrcProtocolParserState) = ⟨.WAIT_HEADER_1, 0, 0, []⟩ from rfl,
        run_wh1_aa, run_wh2_55, run_wf, run_wl_zero,
        run_rc_ok t fc 0 (checksum_crc8 (fc :: 0 :: [])) [] more rfl]
      rfl
  | cons p ps =>
      show run_bytes t
        (0xAA :: 0x55 :: fc :: (p :: ps).length ::
          (((p :: ps) ++ [checksum_crc8 (fc :: (p :: ps).length :: (p :: ps))]) ++ more))
        parserReset = _
      rw [show (parserReset : RrcProtocolParserState) = ⟨.WAIT_HEADER_1, 0, 0, []⟩ from rfl,
        run_wh1_aa, run_wh2_55, run_wf, run_wl_pos t fc 0 (p :: ps).length _ _ (by simp),
        List.append_assoc,
        run_read_data t fc (p :: ps).length (p :: ps) []
          ([checksum_crc8 (fc :: (p :: ps).length :: (p :: ps))] ++ more) (by simp) (by simp),
        List.nil_append]
      show run_bytes t
        (checksum_crc8 (fc :: (p :: ps).length :: (p :: ps)) :: more)
        ⟨.READ_CHECKSUM, fc, (p :: ps).length, p :: ps⟩ = _
      rw [run_rc_ok t fc (p :: ps).length _ (p :: ps) more rfl]
      rfl

/-- Noise containing no `0xAA` byte leaves the initial parser state
unchanged and emits nothing. -/
lemma run_noise (t : Nat) :
    ∀ (noise : List Nat), (∀ b ∈ noise, b ≠ 0xAA) →
      ∀ more, run_bytes t (noise ++ more) parserReset = run_bytes t more parserReset := by
  intro noise
  induction noise with
  | nil => intro _ more; rfl
  | cons b bs ih =>
      intro h more
      have hb : ¬(b = 0xAA) := h b (List.mem_cons_self b bs)
      show run_bytes t (b :: (bs ++ more)) parserReset = _
      rw [show (parserReset : RrcProtocolParserState) = ⟨.WAIT_HEADER_1, 0, 0, []⟩ from rfl,
        run_wh1_other t 0 0 b [] (bs ++ more) hb]
      exact ih (fun x hx => h x (List.mem_cons_of_mem b hx)) more

/-- C1 (amended): two well-formed frames separated by noise that contains
no `0xAA` byte are both decoded, in order, and nothing else is emitted. -/
theorem two_frames_with_aa_free_gap (t fc1 fc2 : Nat) (pl1 pl2 noise : List Nat)
    (hn : ∀ b ∈ noise, b ≠ 0xAA) :
    (run_bytes t (encode_frame fc1 pl1 ++ (noise ++ encode_frame fc2 pl2)) parserReset).2 =
      [⟨fc1, pl1.length, pl1, t⟩, ⟨fc2, pl2.length, pl2, t⟩] := by
  rw [run_frame t fc1 pl1 (noise ++ encode_frame fc2 pl2),
    run_noise t noise hn (encode_frame fc2 pl2)]
  have h2 := run_frame t fc2 pl2 []
  rw [List.append_nil] at h2
  rw [h2]
  rfl

/-- Witness for `two_frames_with_aa_free_gap`: two concrete frames with
two concrete noise bytes between them. -/
theorem two_frames_with_aa_free_gap_witness :
    (run_bytes 4 (encode_frame 1 [7] ++ ([0, 5] ++ encode_frame 2 [])) parserReset).2 =
      [⟨1, 1, [7], 4⟩, ⟨2, 0, [], 4⟩] :=
  two_frames_with_aa_free_gap 4 1 2 [7] [] [0, 5] (by decide)

/-- Counterexample to C1 as stated: a single noise byte `0xAA` between two
well-formed empty frames. The stray `0xAA` moves the parser to
`WAIT_HEADER_2`; the second frame's own `0xAA` then fails the `0x55`
comparison and is consumed by the resync reset, so the second frame's
header is never recognized — only one frame (the first) is emitted, not
two. -/
theorem noise_aa_loses_second_frame :
    (run_bytes 0 (encode_frame 0 [] ++ ([0xAA] ++ encode_frame 0 [])) parserReset).2 =
        [⟨0, 0, [], 0⟩] ∧
      (run_bytes 0 (encode_frame 0 [] ++ ([0xAA] ++ encode_frame 0 [])) parserReset).2.length ≠
        2 := by
  constructor
  · decide
  · decide

-- C5: streams without the two-byte header.

/-- `true` iff the byte list never contains `0xAA` immediately followed
by `0x55`. -/
def has_no_header : List Nat → Bool
  | a :: b :: rest => !(a = 0xAA && b = 0x55) && has_no_header (b :: rest)
  | _ => true

lemma has_no_header_tail {b : Nat} {rest : List Nat}
    (h : has_no_header (b :: rest) = true) : has_no_header rest = true := by
  cases rest with
  | nil => rfl
  | cons c cs => simp [has_no_header] at h ⊢; exact h.2

lemma has_no_header_head {c : Nat} {cs : List Nat}
    (h : has_no_header (0xAA :: c :: cs) = true) : ¬(c = 0x55) := by
  simp [has_no_header] at h
  exact h.1

/-- Streams with no adjacent `0xAA 0x55` pair emit no packet, whether the
parser sits in `WAIT_HEADER_1` or in `WAIT_HEADER_2` with a next byte
other than `0x55`. -/
lemma run_no_header_aux (t : Nat) :
    ∀ (bs : List Nat), has_no_header bs = true →
      (∀ fc dl buf, (run_bytes t bs ⟨.WAIT_HEADER_1, fc, dl, buf⟩).2 = []) ∧
      (bs.head? ≠ some 0x55 →
        ∀ fc dl buf, (run_bytes t bs ⟨.WAIT_HEADER_2, fc, dl, buf⟩).2 = []) := by
  intro bs
  induction bs with
  | nil => intro _; exact ⟨fun _ _ _ => rfl, fun _ _ _ _ => rfl⟩
  | cons b rest ih =>
      intro h
      have hrest := has_no_header_tail h
      constructor
      · intro fc dl buf
        by_cases hb : b = 0xAA
        · subst hb
          have hh : rest.head? ≠ some 0x55 := by
            cases rest with
            | nil => exact fun hx => Option.noConfusion hx
            | cons c cs =>
                exact fun hx => has_no_header_head h (Option.some.inj hx)
          rw [run_wh1_aa]
          exact (ih hrest).2 hh fc dl buf
        · rw [run_wh1_other t fc dl b buf rest hb]
          exact (ih hrest).1 fc dl buf
      · intro hne fc dl buf
        have hb : ¬(b = 0x55) := fun hx => hne (by rw [hx]; rfl)
        rw [run_wh2_other t fc dl b buf rest hb]
        exact (ih hrest).1 0 0 []

/-- C5: a byte sequence that never contains `0xAA` immediately followed
by `0x55`, fed from the initial `WAIT_HEADER_1` state, emits no frame at
any point. -/
theorem no_header_no_packet (t : Nat) (bs : List Nat)
    (h : has_no_header bs = true) :
    (run_bytes t bs parserReset).2 = [] :=
  (run_no_header_aux t bs h).1 0 0 []

/-- Witness for `no_header_no_packet`: a concrete stream containing both
`0xAA` and `0x55`, just never adjacently in that order. -/
theorem no_header_no_packet_witness :
    (run_bytes 3 [0x55, 0xAA, 0xAA, 1, 0x55, 0xAA] parserReset).2 = [] :=
  no_header_no_packet 3 [0x55, 0xAA, 0xAA, 1, 0x55, 0xAA] (by decide)

-- C7: statistics accounting in `handle_packet`.

lemma stats_system (s : RobotDataStore) (data : List Nat) (t : Nat) :
    (_parse_system_data s data t).stats = s.stats := by
  unfold _parse_system_data
  split
  · split <;> rfl
  · rfl

lemma stats_key (s : RobotDataStore) (data : List Nat) (t : Nat) :
    (_parse_key_event s data t).stats = s.stats := by
  unfold _parse_key_event
  split <;> rfl

lemma stats_imu (s : RobotDataStore) (data : List Nat) (t : Nat) :
    (_parse_imu_data s data t).stats = s.stats := by
  unfold _parse_imu_data
  split <;> rfl

lemma stats_servo (s : RobotDataStore) (data : List Nat) (t : Nat) :
    (_parse_bus_servo_info s data t).stats = s.stats := by
  unfold _parse_bus_servo_info
  split <;> rfl

lemma stats_gamepad (s : RobotDataStore) (data : List Nat) (t : Nat) :
    (_parse_gamepad_data s data t).stats = s.stats := by
  unfold _parse_gamepad_data
  split <;> rfl

lemma stats_encoder (s : RobotDataStore) (data : List Nat) (t : Nat) :
    (_parse_encoder_data s data t).stats = s.stats := by
  unfold _parse_encoder_data
  split
  · split <;> rfl
  · rfl

lemma stats_sbus (s : RobotDataStore) (data : List Nat) (t : Nat) :
    (_parse_sbus_data s data t).stats = s.stats := by
  unfold _parse_sbus_data
  split <;> rfl

/-- `handle_packet` performs exactly the stats update, whatever the
routing outcome. -/
lemma handle_packet_stats (s : RobotDataStore) (pk : RrcPacket) :
    (handle_packet s pk).stats =
      { s.stats with
        total_packets := s.stats.total_packets + 1,
        valid_packets := s.stats.valid_packets + 1,
        packet_counts := fun c => if c = pk.function_code then
          s.stats.packet_counts pk.function_code + 1 else s.stats.packet_counts c } := by
  unfold handle_packet
  simp only [apply_ite RobotDataStore.stats, stats_system, stats_key, stats_imu,
    stats_servo, stats_gamepad, stats_encoder, stats_sbus, ite_self]

lemma fold_stats_invariant :
    ∀ (pks : List RrcPacket) (s : RobotDataStore),
      s.stats.total_packets = s.stats.valid_packets → s.stats.crc_errors = 0 →
      (pks.foldl handle_packet s).stats.total_packets =
          (pks.foldl handle_packet s).stats.valid_packets ∧
        (pks.foldl handle_packet s).stats.crc_errors = 0 := by
  intro pks
  induction pks with
  | nil => intro s h1 h2; exact ⟨h1, h2⟩
  | cons pk pks ih =>
      intro s h1 h2
      refine ih (handle_packet s pk) ?_ ?_
      · rw [handle_packet_stats]
        simpa using h1
      · rw [handle_packet_stats]
        simpa using h2

/-- C7: every packet reaching `handle_packet` bumps `total_packets`,
`valid_packets` and its own function code's count by exactly one, before
any decode runs (no decode routine touches the stats), leaves every other
per-code count, `crc_errors` and `start_time` alone; consequently, after
any sequence of dispatched packets from a fresh store, `total_packets`
equals `valid_packets` and `crc_errors` is still 0. -/
theorem stats_accounting :
    (∀ (s : RobotDataStore) (data : List Nat) (t : Nat),
      (_parse_system_data s data t).stats = s.stats ∧
      (_parse_key_event s data t).stats = s.stats ∧
      (_parse_imu_data s data t).stats = s.stats ∧
      (_parse_bus_servo_info s data t).stats = s.stats ∧
      (_parse_gamepad_data s data t).stats = s.stats ∧
      (_parse_encoder_data s data t).stats = s.stats ∧
      (_parse_sbus_data s data t).stats = s.stats) ∧
    (∀ (s : RobotDataStore) (pk : RrcPacket),
      (handle_packet s pk).stats.total_packets = s.stats.total_packets + 1 ∧
      (handle_packet s pk).stats.valid_packets = s.stats.valid_packets + 1 ∧
      (handle_packet s pk).stats.packet_counts pk.function_code =
        s.stats.packet_counts pk.function_code + 1 ∧
      (∀ c, c ≠ pk.function_code →
        (handle_packet s pk).stats.packet_counts c = s.stats.packet_counts c) ∧
      (handle_packet s pk).stats.crc_errors = s.stats.crc_errors ∧
      (handle_packet s pk).stats.start_time = s.stats.start_time) ∧
    (∀ (t : Nat) (pks : List RrcPacket),
      (pks.foldl handle_packet (storeInit t)).stats.total_packets =
          (pks.foldl handle_packet (storeInit t)).stats.valid_packets ∧
        (pks.foldl handle_packet (storeInit t)).stats.crc_errors = 0) := by
  refine ⟨fun s data t => ?_, fun s pk => ?_, fun t pks => ?_⟩
  · exact ⟨stats_system s data t, stats_key s data t, stats_imu s data t,
      stats_servo s data t, stats_gamepad s data t, stats_encoder s data t,
      stats_sbus s data t⟩
  · rw [handle_packet_stats]
    refine ⟨rfl, rfl, by simp, fun c hc => by simp [hc], rfl, rfl⟩
  · exact fold_stats_invariant pks (storeInit t) rfl rfl

/-- Witness for `stats_accounting`: a packet with function code 7 leaves
the count of code 3 unchanged. -/
theorem stats_accounting_witness :
    (handle_packet (storeInit 0) ⟨7, 0, [], 5⟩).stats.packet_counts 3 =
      (storeInit 0).stats.packet_counts 3 :=
  (stats_accounting.2.1 (storeInit 0) ⟨7, 0, [], 5⟩).2.2.2.1 3 (by decide)

-- C6 and C10: the two decodes of function code 0x0B.

lemma slice_getD (l : List Nat) (k i d : Nat) (h : i < 9) :
    ((l.drop k).take 9).getD i d = l.getD (k + i) d := by
  rw [List.getD_eq_getElem?_getD, List.getD_eq_getElem?_getD, List.getElem?_take,
    if_pos h, List.getElem?_drop]

lemma encoder_sbus_untouched (s : RobotDataStore) (data : List Nat) (t : Nat) :
    (_parse_encoder_data s data t).sbus_data = s.sbus_data := by
  unfold _parse_encoder_data
  split
  · split <;> rfl
  · rfl

lemma sbus_encoder_untouched (s : RobotDataStore) (data : List Nat) (t : Nat) :
    (_parse_sbus_data s data t).encoder_data = s.encoder_data := by
  unfold _parse_sbus_data
  split <;> rfl

/-- Effect of a successful 37-byte, sub-command `0x10` encoder decode on
the encoder record: each of the four slots receives the 9-byte block at
its own payload offset. -/
lemma encoder_decode_37 (s : RobotDataStore) (data : List Nat) (t : Nat)
    (h37 : data.length = 37) (hsub : data.getD 0 0 = 0x10) :
    (_parse_encoder_data s data t).encoder_data =
      ⟨unpack_motor ((data.drop 1).take 9), unpack_motor ((data.drop 10).take 9),
       unpack_motor ((data.drop 19).take 9), unpack_motor ((data.drop 28).take 9),
       some t⟩ := by
  obtain ⟨sys, ⟨m0, m1, m2, m3, lu⟩, imu, gp, kd, sb, srv, st⟩ := s
  unfold _parse_encoder_data
  rw [if_pos h37, if_pos hsub]
  simp [List.length_take, List.length_drop, h37]

/-- Effect of a successful 36-byte SBUS decode on the SBUS record. -/
lemma sbus_decode_36 (s : RobotDataStore) (data : List Nat) (t : Nat)
    (h36 : data.length = 36) :
    (_parse_sbus_data s data t).sbus_data =
      ⟨(List.range 16).map (fun i => i16le (data.getD (2 * i) 0) (data.getD (2 * i + 1) 0)),
       data.getD 32 0, data.getD 33 0, data.getD 34 0 ≠ 0, data.getD 35 0 ≠ 0,
       some t⟩ := by
  simp [_parse_sbus_data, h36]

/-- `handle_packet` on function code `0x0B` is the stats bump followed by
the encoder decode and then the SBUS decode on the same payload. -/
lemma handle_packet_0B (s : RobotDataStore) (dl : Nat) (data : List Nat) (t : Nat) :
    handle_packet s ⟨0x0B, dl, data, t⟩ =
      _parse_sbus_data (_parse_encoder_data
        { s with stats := { s.stats with
            total_packets := s.stats.total_packets + 1,
            valid_packets := s.stats.valid_packets + 1,
            packet_counts := fun c => if c = 0x0B then
              s.stats.packet_counts 0x0B + 1 else s.stats.packet_counts c } }
        data t) data t := by
  unfold handle_packet
  norm_num

/-- C6: a dispatched `0x0B` frame is decoded against both layouts. A
37-byte payload with sub-command `0x10` rewrites the four encoder slots
from the four 9-byte motor blocks and leaves the SBUS record untouched; a
36-byte payload rewrites the SBUS record (16 little-endian i16 channels,
then ch17, ch18, signal-loss and fail-safe bytes) and leaves the encoder
record untouched; any motor record's `rpm` is its `rps` scaled by 60; and
since the two lengths are mutually exclusive, any other length leaves
both records untouched — at most one category changes per frame. -/
theorem func0B_dual_decode (s : RobotDataStore) (data : List Nat) (t : Nat) :
    (data.length = 37 →
      (handle_packet s ⟨0x0B, 37, data, t⟩).sbus_data = s.sbus_data ∧
      (data.getD 0 0 = 0x10 →
        (handle_packet s ⟨0x0B, 37, data, t⟩).encoder_data =
          ⟨unpack_motor ((data.drop 1).take 9), unpack_motor ((data.drop 10).take 9),
           unpack_motor ((data.drop 19).take 9), unpack_motor ((data.drop 28).take 9),
           some t⟩)) ∧
    (data.length = 36 →
      (handle_packet s ⟨0x0B, 36, data, t⟩).encoder_data = s.encoder_data ∧
      (handle_packet s ⟨0x0B, 36, data, t⟩).sbus_data =
        ⟨(List.range 16).map (fun i => i16le (data.getD (2 * i) 0) (data.getD (2 * i + 1) 0)),
         data.getD 32 0, data.getD 33 0, data.getD 34 0 ≠ 0, data.getD 35 0 ≠ 0,
         some t⟩) ∧
    (∀ md : List Nat, (unpack_motor md).rpm = (unpack_motor md).rps.mul60) ∧
    (data.length ≠ 36 → data.length ≠ 37 →
      (handle_packet s ⟨0x0B, data.length, data, t⟩).encoder_data = s.encoder_data ∧
      (handle_packet s ⟨0x0B, data.length, data, t⟩).sbus_data = s.sbus_data) := by
  refine ⟨fun h37 => ⟨?_, fun hsub => ?_⟩, fun h36 => ⟨?_, ?_⟩, fun md => rfl,
    fun hn36 hn37 => ⟨?_, ?_⟩⟩
  · rw [handle_packet_0B, sbus_len_guard _ _ (by omega), encoder_sbus_untouched]
  · rw [handle_packet_0B, sbus_encoder_untouched, encoder_decode_37 _ data t h37 hsub]
  · rw [handle_packet_0B, encoder_len_guard _ _ (by omega), sbus_encoder_untouched]
  · rw [handle_packet_0B, encoder_len_guard _ _ (by omega), sbus_decode_36 _ data t h36]
  · rw [handle_packet_0B, encoder_len_guard _ _ hn37, sbus_encoder_untouched]
  · rw [handle_packet_0B, encoder_len_guard _ _ hn37, sbus_len_guard _ _ hn36]

/-- Witness for `func0B_dual_decode`: the spec's own example — a 37-byte
batch whose first motor block is `id=2, counter=1000, rps=10.0` (bytes
`00 00 20 41`) yields `speed_rpm = 600.0` (that is, `600 · 2^149` units
of `2^-149`), while the SBUS record stays at its default. -/
theorem func0B_dual_decode_witness :
    (handle_packet (storeInit 0)
        ⟨0x0B, 37, 16 :: 2 :: 232 :: 3 :: 0 :: 0 :: 0 :: 0 :: 32 :: 65 ::
          List.replicate 27 0, 5⟩).sbus_data = (storeInit 0).sbus_data ∧
    (handle_packet (storeInit 0)
        ⟨0x0B, 37, 16 :: 2 :: 232 :: 3 :: 0 :: 0 :: 0 :: 0 :: 32 :: 65 ::
          List.replicate 27 0, 5⟩).encoder_data.motor_0 =
      ⟨2, 1000, FVal.finite (10 * 2 ^ 149), FVal.finite (600 * 2 ^ 149)⟩ := by
  refine ⟨((func0B_dual_decode (storeInit 0) _ 5).1 (by decide)).1, ?_⟩
  rw [((func0B_dual_decode (storeInit 0) _ 5).1 (by decide)).2 (by decide)]
  decide

/-- C10: in a valid 37-byte encoder batch, the block at payload offset
`1 + 9·i` is always written to store slot `motor_i` — slot selection is
positional, and the wire `motor_id` byte lands only in that slot's `id`
field (`slot i` gets `id = data[1 + 9·i]` whatever its value). -/
theorem encoder_blocks_positional (s : RobotDataStore) (data : List Nat) (t : Nat)
    (h37 : data.length = 37) (hsub : data.getD 0 0 = 0x10) :
    ((_parse_encoder_data s data t).encoder_data.motor_0 =
        unpack_motor ((data.drop 1).take 9) ∧
      (_parse_encoder_data s data t).encoder_data.motor_1 =
        unpack_motor ((data.drop 10).take 9) ∧
      (_parse_encoder_data s data t).encoder_data.motor_2 =
        unpack_motor ((data.drop 19).take 9) ∧
      (_parse_encoder_data s data t).encoder_data.motor_3 =
        unpack_motor ((data.drop 28).take 9)) ∧
    ((_parse_encoder_data s data t).encoder_data.motor_0.id = data.getD 1 0 ∧
      (_parse_encoder_data s data t).encoder_data.motor_1.id = data.getD 10 0 ∧
      (_parse_encoder_data s data t).encoder_data.motor_2.id = data.getD 19 0 ∧
      (_parse_encoder_data s data t).encoder_data.motor_3.id = data.getD 28 0) := by
  have h := encoder_decode_37 s data t h37 hsub
  rw [h]
  refine ⟨⟨rfl, rfl, rfl, rfl⟩, ?_, ?_, ?_, ?_⟩
  · simp only [unpack_motor]
    exact slice_getD data 1 0 0 (by norm_num)
  · simp only [unpack_motor]
    exact slice_getD data 10 0 0 (by norm_num)
  · simp only [unpack_motor]
    exact slice_getD data 19 0 0 (by norm_num)
  · simp only [unpack_motor]
    exact slice_getD data 28 0 0 (by norm_num)

/-- Witness for `encoder_blocks_positional`: a batch whose blocks carry
ids `3, 2, 1, 0` (out of payload order) still lands block 0 in slot
`motor_0` (which then reports `id = 3`) and block 3 in slot `motor_3`
(reporting `id = 0`). -/
theorem encoder_blocks_positional_witness :
    (_parse_encoder_data (storeInit 0)
        [16, 3, 0, 0, 0, 0, 0, 0, 0, 0, 2, 0, 0, 0, 0, 0, 0, 0, 0,
         1, 0, 0, 0, 0, 0, 0, 0, 0, 0, 0, 0, 0, 0, 0, 0, 0, 0] 4).encoder_data.motor_0.id
        = 3 ∧
    (_parse_encoder_data (storeInit 0)
        [16, 3, 0, 0, 0, 0, 0, 0, 0, 0, 2, 0, 0, 0, 0, 0, 0, 0, 0,
         1, 0, 0, 0, 0, 0, 0, 0, 0, 0, 0, 0, 0, 0, 0, 0, 0, 0] 4).encoder_data.motor_3.id
        = 0 := by
  have h := encoder_blocks_positional (storeInit 0)
    [16, 3, 0, 0, 0, 0, 0, 0, 0, 0, 2, 0, 0, 0, 0, 0, 0, 0, 0,
     1, 0, 0, 0, 0, 0, 0, 0, 0, 0, 0, 0, 0, 0, 0, 0, 0, 0] 4 (by decide) (by decide)
  exact ⟨by rw [h.2.1]; decide, by rw [h.2.2.2.2]; decide⟩
